import Mathlib

/-!
Verification of the npkern reflashing back-end (pl_flash_7051.c and
platf_7055_350nm.c) against its natural-language specification.

The two C files are shallowly embedded below.  Machine integers are
modelled as Nat with explicit 32-bit truncation where the C code relies
on wraparound; memory-mapped hardware (FLMCR1/FLMCR2 control registers,
EBR1/EBR2 block-select registers, the WDT, and the flash array) is
modelled as an explicit state record threaded through every function,
together with an event log recording every hardware access.  Readback
values of flash verify reads are supplied by a device oracle, since the
physical flash response is outside the program.  Timing (waitn) has no
observable effect in the embedding beyond the pulse-duration arguments,
which are kept.
-/

/-- FLMCR bit masks, identical in both C files (FLMCR bit defines). -/
def FLMCR_FWE : Nat := 0x80
def FLMCR_FLER : Nat := 0x80
def FLMCR_SWE : Nat := 0x40
def FLMCR_ESU : Nat := 0x20
def FLMCR_PSU : Nat := 0x10
def FLMCR_EV : Nat := 0x08
def FLMCR_PV : Nat := 0x04
def FLMCR_E : Nat := 0x02
def FLMCR_P : Nat := 0x01

/-- Error codes from npk_errcodes.h. -/
def PF_ERROR : Nat := 0x80
def PFEB_BADBLOCK : Nat := 0x84
def PFEB_VERIFAIL : Nat := 0x85
def PFWB_OOB : Nat := 0x88
def PFWB_MISALIGNED : Nat := 0x89
def PFWB_LEN : Nat := 0x8A
def PFWB_VERIFAIL : Nat := 0x8B
def PFWB_MAXRET : Nat := 0x8C

/-- All-ones 32-bit word, the value 0xFFFFFFFF; also the u32 reading of
the C literal -1 returned by several 7055 error paths. -/
def U32M : Nat := 4294967295

/-- Bitwise complement of a 32-bit value, the C expression tilde-v on u32. -/
def u32not (v : Nat) : Nat := U32M ^^^ v

/-- u32 subtraction with wraparound, the C expression a - b on uint32_t. -/
def u32sub (a b : Nat) : Nat := (a + 4294967296 - b) % 4294967296

/-- Reprogram-data computation, line 397 of pl_flash_7051.c and line 437
of platf_7055_350nm.c: reprog = srcdata | ~verifdata. -/
def reprogNext (srcdata verifdata : Nat) : Nat := srcdata ||| u32not verifdata

/-- Device oracle: the value read back from the flash array at a given
address, indexed by how many verify reads have happened so far.  The
physical response of the flash cells is hardware, not program, so it is
a parameter of the embedding. -/
structure Dev where
  read : Nat → Nat → Nat

/-- One hardware access, as recorded in the event log.  The Bool on
register events selects register 1 (false) or register 2 (true). -/
inductive Evt where
  | flmcr (r : Bool) (v : Nat)
  | ebr (r : Bool) (v : Nat)
  | wdtTcsr (v : Nat)
  | wdtRstcsr (v : Nat)
  | latch (addr v : Nat)
  | dummy (addr : Nat)
  | progPulse (tsp : Nat)
  | erasePulse
  deriving DecidableEq

/-- Hardware state: the two flash-control registers, the two
block-select registers, the selected register pointers (pFLMCR and
pEBR, false selecting register 1), a verify-read counter feeding the
device oracle, a counter of chunk-write calls, and the access log
(most recent event first). -/
structure St where
  flmcr1 : Nat
  flmcr2 : Nat
  ebr1 : Nat
  ebr2 : Nat
  sel : Bool
  selEbr : Bool
  reads : Nat
  wcalls : Nat
  log : List Evt
  deriving DecidableEq

/-- Reset state: FWE asserted (hardware write-enable pin high), all
other control bits clear, nothing logged. -/
def St.init : St :=
  { flmcr1 := FLMCR_FWE, flmcr2 := 0, ebr1 := 0, ebr2 := 0,
    sel := false, selEbr := false, reads := 0, wcalls := 0, log := [] }

/-- Value of the register pFLMCR points to. -/
def rdSel (st : St) : Nat := cond st.sel st.flmcr2 st.flmcr1

/-- Write through pFLMCR, logging the access. -/
def wrSel (st : St) (v : Nat) : St :=
  cond st.sel
    { st with flmcr2 := v, log := Evt.flmcr true v :: st.log }
    { st with flmcr1 := v, log := Evt.flmcr false v :: st.log }

/-- C statement *pFLMCR |= mask. -/
def orSel (st : St) (mask : Nat) : St := wrSel st (rdSel st ||| mask)

/-- C statement *pFLMCR &= mask (the mask argument is the full byte
mask actually applied, e.g. 0xFF ^^^ FLMCR_P for &= ~FLMCR_P). -/
def andSel (st : St) (mask : Nat) : St := wrSel st (rdSel st &&& mask)

/-- Write to WDT.WRITE.TCSR. -/
def wdtTcsr (st : St) (v : Nat) : St :=
  { st with log := Evt.wdtTcsr v :: st.log }

/-- Write to WDT.WRITE.RSTCSR. -/
def wdtRstcsr (st : St) (v : Nat) : St :=
  { st with log := Evt.wdtRstcsr v :: st.log }

/-- Dummy all-ones write during a verify read. -/
def logDummy (st : St) (addr : Nat) : St :=
  { st with log := Evt.dummy addr :: st.log }

/-- One verify read has been consumed. -/
def bumpRead (st : St) : St := { st with reads := st.reads + 1 }

/-- fwecheck, identical in both files: FLMCR1.FWE must be set and
FLMCR2.FLER must be clear (both are bit 7 of their register). -/
def fwecheck (st : St) : Bool :=
  st.flmcr1.testBit 7 && !(st.flmcr2.testBit 7)

/-- Raise the program-pulse bit P through pFLMCR; the extra progPulse
event marks that one program pulse of duration tsp is being issued. -/
def pulseP (st : St) (tsp : Nat) : St :=
  let st := orSel st FLMCR_P
  { st with log := Evt.progPulse tsp :: st.log }

/-- WDT command words shared by both files (values from the macros). -/
def WDT_TCSR_STOP : Nat := 0xA558
def WDT_TCSR_ESTART : Nat := 0xA57E
def WDT_TCSR_WSTART : Nat := 0xA57D

/-- The n source words starting at address src, read from RAM (the C
memcpy of the source buffer).  RAM content is the word-addressed map
ram. -/
def chunkWords (ram : Nat → Nat) (src : Nat) (n : Nat) : List Nat :=
  (List.range n).map (fun k => ram (src + 4 * k))

namespace N51

/-! Embedding of pl_flash_7051.c (SH7051). -/

def FL_MAXROM : Nat := 256 * 1024 - 1
def MAX_ET : Nat := 61
def MAX_WT : Nat := 400
def BLK_MAX : Nat := 12
def FLMCR2_BEGIN : Nat := 0x20000
def WDT_RSTCSR_SETTING : Nat := 0x5A4F

/-- WAITN_CALCN(usec) at CPUFREQ = 20, usec*20/4 + 1; only the write
pulse durations are observable (they tag progPulse events). -/
def TSP500 : Nat := 500 * 20 / 4 + 1

def fblocks : List Nat :=
  [0x00000000, 0x00008000, 0x00010000, 0x00018000, 0x00020000,
   0x00028000, 0x00030000, 0x00038000, 0x0003F000, 0x0003F400,
   0x0003F800, 0x0003FC00, 0x00040000]

/-- sweset, 7051 flavour: writes the SWE bit of FLMCR1 directly
(FLASH.FLMCR1.BIT.SWE = 1), regardless of pFLMCR. -/
def sweset (st : St) : St :=
  { st with flmcr1 := st.flmcr1 ||| FLMCR_SWE,
            log := Evt.flmcr false (st.flmcr1 ||| FLMCR_SWE) :: st.log }

/-- sweclear, 7051 flavour: clears only the SWE bit of FLMCR1. -/
def sweclear (st : St) : St :=
  { st with flmcr1 := st.flmcr1 &&& (0xFF ^^^ FLMCR_SWE),
            log := Evt.flmcr false (st.flmcr1 &&& (0xFF ^^^ FLMCR_SWE)) :: st.log }

/-- EBR1 write. -/
def wrEbr1 (st : St) (v : Nat) : St :=
  { st with ebr1 := v, log := Evt.ebr false v :: st.log }

/-- EBR2 write. -/
def wrEbr2 (st : St) (v : Nat) : St :=
  { st with ebr2 := v, log := Evt.ebr true v :: st.log }

/-- ferase: select the block bit on EBR1/EBR2 and issue one erase
pulse.  bitsel is 1 shifted left blockno times (the C while loop). -/
def ferase (blockno : Nat) (st : St) : St :=
  let bitsel := 1 <<< blockno
  let st := wrEbr2 st 0
  let st := wrEbr1 st (bitsel &&& 0x0F)
  let st := wrEbr2 st ((bitsel >>> 4) &&& 0xFF)
  let st := wdtTcsr st WDT_TCSR_STOP
  let st := wdtTcsr st WDT_TCSR_ESTART
  let st := orSel st FLMCR_ESU
  let st := orSel st FLMCR_E
  let st := { st with log := Evt.erasePulse :: st.log }
  let st := andSel st (0xFF ^^^ FLMCR_E)
  let st := andSel st (0xFF ^^^ FLMCR_ESU)
  let st := wdtTcsr st WDT_TCSR_STOP
  let st := wrEbr1 st 0
  let st := wrEbr2 st 0
  st

/-- Inner loop of ferasevf over the words of the block, rem words left
at address addr; breaks out at the first word that does not read back
all-ones. -/
def ferasevfLoop (dev : Dev) : Nat → Nat → St → Bool × St
  | 0, _, st => (true, st)
  | rem + 1, addr, st =>
    let st := orSel st FLMCR_EV
    let st := logDummy st addr
    let v := dev.read st.reads addr
    let st := bumpRead st
    if v = U32M then ferasevfLoop dev rem (addr + 4) st
    else (false, st)

/-- ferasevf: erase-verify the whole block, then lower the EV bit. -/
def ferasevf (dev : Dev) (blockno : Nat) (st : St) : Bool × St :=
  let start := fblocks.getD blockno 0
  let stop := fblocks.getD (blockno + 1) 0
  let r := ferasevfLoop dev ((stop - start) / 4) start st
  let st := andSel r.2 (0xFF ^^^ FLMCR_EV)
  (r.1, st)

/-- The erase retry loop of platf_flash_eb, rem attempts left
(for count = 0; count < MAX_ET; count++). -/
def ebLoop (dev : Dev) (blockno : Nat) : Nat → St → Nat × St
  | 0, st => (PFEB_VERIFAIL, sweclear st)
  | rem + 1, st =>
    let st := ferase blockno st
    let r := ferasevf dev blockno st
    if r.1 then (0, sweclear r.2)
    else ebLoop dev blockno rem r.2

/-- platf_flash_eb of pl_flash_7051.c.  enabled models the
reflash_enabled module global. -/
def platf_flash_eb (dev : Dev) (enabled : Bool) (blockno : Nat) (st : St) :
    Nat × St :=
  if blockno ≥ BLK_MAX then (PFEB_BADBLOCK, st)
  else if !enabled then (0, st)
  else
    let st := { st with sel := decide (fblocks.getD blockno 0 ≥ FLMCR2_BEGIN) }
    if !fwecheck st then (PF_ERROR, st)
    else
      let st := sweset st
      let st := wdtTcsr st WDT_TCSR_STOP
      let st := wdtRstcsr st WDT_RSTCSR_SETTING
      ebLoop dev blockno MAX_ET st

/-- Latch loop of writepulse: the 32-byte copy into the flash latch,
modelled at word granularity (the C performs byte transfers of the
same data). -/
def latchLoop (dest : Nat) (ws : List Nat) (k : Nat) (st : St) : St :=
  match ws with
  | [] => st
  | w :: ws =>
    latchLoop dest ws (k + 1)
      { st with log := Evt.latch (dest + 4 * k) w :: st.log }

/-- writepulse of pl_flash_7051.c: latch the buffer, then the
PSU/P pulse sequence bracketed by WDT arm/disarm. -/
def writepulse (dest : Nat) (ws : List Nat) (tsp : Nat) (st : St) : St :=
  let st := latchLoop dest ws 0 st
  let st := wdtTcsr st WDT_TCSR_STOP
  let st := wdtTcsr st WDT_TCSR_WSTART
  let st := orSel st FLMCR_PSU
  let st := pulseP st tsp
  let st := andSel st (0xFF ^^^ FLMCR_P)
  let st := andSel st (0xFF ^^^ FLMCR_PSU)
  let st := wdtTcsr st WDT_TCSR_STOP
  st

/-- Program-verify loop of flash_write32 over the 8 words of the
chunk; rem words left, k the word index.  An error value is the goto
badexit taken on the hard-fault test srcdata & ~verifdata (line 390);
note the PV bit is not lowered on that path, exactly as in the C. -/
def pv32 (dev : Dev) (dest : Nat) (srcW : List Nat) :
    Nat → Nat → Bool → List Nat → St → Except St (Bool × List Nat × St)
  | 0, _, m, reprog, st => .ok (m, reprog, st)
  | rem + 1, k, m, reprog, st =>
    let addr := dest + 4 * k
    let st := logDummy st addr
    let verifdata := dev.read st.reads addr
    let st := bumpRead st
    let srcdata := srcW.getD k 0
    let m := if verifdata ≠ srcdata then true else m
    if srcdata &&& u32not verifdata ≠ 0 then .error st
    else
      pv32 dev dest srcW rem (k + 1) m
        (reprog.set k (reprogNext srcdata verifdata)) st

/-- The write retry loop of flash_write32 (for n = 1; n < MAX_WT; n++),
rem iterations left; the loop body does not otherwise use n. -/
def w32Loop (dev : Dev) (dest : Nat) (srcW : List Nat) :
    Nat → List Nat → St → Nat × St
  | 0, _, st => (PFWB_MAXRET, sweclear st)
  | rem + 1, reprog, st =>
    let st := writepulse dest reprog TSP500 st
    let st := orSel st FLMCR_PV
    match pv32 dev dest srcW 8 0 false reprog st with
    | .error st => (PFWB_VERIFAIL, sweclear st)
    | .ok (m, reprog, st) =>
      let st := andSel st (0xFF ^^^ FLMCR_PV)
      if !m then (0, sweclear st)
      else w32Loop dev dest srcW rem reprog st

/-- The pure register data-path of the 7051 writepulse (lines 308-315
of pl_flash_7051.c): PSU raised, P raised, then P and PSU lowered with
the arithmetic complement, leaving every other bit untouched. -/
def writepulse_regs (r : Nat) : Nat :=
  (((r ||| FLMCR_PSU) ||| FLMCR_P) &&& (0xFF ^^^ FLMCR_P)) &&& (0xFF ^^^ FLMCR_PSU)

/-- flash_write32 of pl_flash_7051.c.  srcW is the 8-word content of
the 32-byte source buffer (the memcpy from src_unaligned); the reprog
buffer starts equal to it.  The retry loop runs MAX_WT - 1 times
(n = 1 .. MAX_WT - 1). -/
def flash_write32 (dev : Dev) (dest : Nat) (srcW : List Nat) (st : St) :
    Nat × St :=
  let st := { st with wcalls := st.wcalls + 1 }
  let st := { st with sel := decide (¬ dest < FLMCR2_BEGIN) }
  if !fwecheck st then (PF_ERROR, st)
  else
    let st := sweset st
    let st := wdtTcsr st WDT_TCSR_STOP
    let st := wdtRstcsr st WDT_RSTCSR_SETTING
    w32Loop dev dest srcW (MAX_WT - 1) srcW st

/-- The while (len) loop of platf_flash_wb, advancing dest and src by
32 and decrementing len by 32 with u32 wraparound; fuel bounds the
number of iterations of the model only. -/
def wbLoop (dev : Dev) (ram : Nat → Nat) :
    Nat → Nat → Nat → Nat → St → Option (Nat × St)
  | 0, _, _, _, _ => none
  | fuel + 1, dest, src, len, st =>
    if len = 0 then some (0, st)
    else
      let r := flash_write32 dev dest (chunkWords ram src 8) st
      if r.1 ≠ 0 then some (r.1, r.2)
      else
        wbLoop dev ram fuel ((dest + 32) % 4294967296)
          ((src + 32) % 4294967296) (u32sub len 32) r.2

/-- platf_flash_wb of pl_flash_7051.c: bound and alignment checks, then
the protective no-op when reflashing is not enabled, then the chunk
loop. -/
def platf_flash_wb (dev : Dev) (ram : Nat → Nat) (enabled : Bool)
    (fuel dest src len : Nat) (st : St) : Option (Nat × St) :=
  if dest > FL_MAXROM then some (PFWB_OOB, st)
  else if dest &&& 0x1F ≠ 0 then some (PFWB_MISALIGNED, st)
  else if len &&& 0x1F ≠ 0 then some (PFWB_LEN, st)
  else if !enabled then some (0, st)
  else wbLoop dev ram fuel dest src len st

end N51

namespace N55

/-! Embedding of platf_7055_350nm.c (SH7055, 0.35um). -/

def FL_MAXROM : Nat := 512 * 1024 - 1
def MAX_ET : Nat := 100
def MAX_WT : Nat := 1000
def OW_COUNT : Nat := 6
def BLK_MAX : Nat := 16
def FLMCR1_MAXBLOCK : Nat := 7
def WDT_RSTCSR_SETTING : Nat := 0x5A5F

/-- WAITN_CALCN(usec) at CPUFREQ = 40, usec*40/4 + 1. -/
def TSP10 : Nat := 10 * 40 / 4 + 1
def TSP30 : Nat := 30 * 40 / 4 + 1
def TSP200 : Nat := 200 * 40 / 4 + 1

def fblocks : List Nat :=
  [0x00000000, 0x00001000, 0x00002000, 0x00003000, 0x00004000,
   0x00005000, 0x00006000, 0x00007000, 0x00008000, 0x00010000,
   0x00020000, 0x00030000, 0x00040000, 0x00050000, 0x00060000,
   0x00070000, 0x00080000]

/-- sweset, 7055 flavour: *pFLMCR |= FLMCR_SWE. -/
def sweset (st : St) : St := orSel st FLMCR_SWE

/-- sweclear, 7055 flavour: *pFLMCR &= ~FLMCR_SWE. -/
def sweclear (st : St) : St := andSel st (0xFF ^^^ FLMCR_SWE)

/-- Write through pEBR (false selects EBR1). -/
def wrEbrSel (st : St) (v : Nat) : St :=
  cond st.selEbr
    { st with ebr2 := v, log := Evt.ebr true v :: st.log }
    { st with ebr1 := v, log := Evt.ebr false v :: st.log }

/-- ferase: bitsel = 1 shifted left by (blockno & 7) (the C masks to 3
bits before the shift loop), written to pEBR, then one erase pulse. -/
def ferase (blockno : Nat) (st : St) : St :=
  let bitsel := 1 <<< (blockno &&& 0x07)
  let st := wrEbrSel st bitsel
  let st := wdtTcsr st WDT_TCSR_STOP
  let st := wdtTcsr st WDT_TCSR_ESTART
  let st := orSel st FLMCR_ESU
  let st := orSel st FLMCR_E
  let st := { st with log := Evt.erasePulse :: st.log }
  let st := andSel st (0xFF ^^^ FLMCR_E)
  let st := andSel st (0xFF ^^^ FLMCR_ESU)
  let st := wdtTcsr st WDT_TCSR_STOP
  let st := wrEbrSel st 0
  st

/-- Inner loop of ferasevf, identical in structure to the 7051 one. -/
def ferasevfLoop (dev : Dev) : Nat → Nat → St → Bool × St
  | 0, _, st => (true, st)
  | rem + 1, addr, st =>
    let st := orSel st FLMCR_EV
    let st := logDummy st addr
    let v := dev.read st.reads addr
    let st := bumpRead st
    if v = U32M then ferasevfLoop dev rem (addr + 4) st
    else (false, st)

/-- ferasevf over the words of block blockno. -/
def ferasevf (dev : Dev) (blockno : Nat) (st : St) : Bool × St :=
  let start := fblocks.getD blockno 0
  let stop := fblocks.getD (blockno + 1) 0
  let r := ferasevfLoop dev ((stop - start) / 4) start st
  let st := andSel r.2 (0xFF ^^^ FLMCR_EV)
  (r.1, st)

/-- The erase retry loop of platf_flash_eb; on exhaustion the C returns
-1 (line 326), which on uint32_t is U32M. -/
def ebLoop (dev : Dev) (blockno : Nat) : Nat → St → Nat × St
  | 0, st => (U32M, sweclear st)
  | rem + 1, st =>
    let st := ferase blockno st
    let r := ferasevf dev blockno st
    if r.1 then (0, sweclear r.2)
    else ebLoop dev blockno rem r.2

/-- Register-set selection of platf_flash_eb (lines 289-295): blocks
with blockno > FLMCR1_MAXBLOCK get FLMCR1/EBR1 (result false), all
others get FLMCR2/EBR2 (result true). -/
def eb_regsel (blockno : Nat) : Bool :=
  if blockno > FLMCR1_MAXBLOCK then false else true

/-- platf_flash_eb of platf_7055_350nm.c.  The fwecheck failure and the
attempt-exhaustion paths both return -1, read back as U32M. -/
def platf_flash_eb (dev : Dev) (enabled : Bool) (blockno : Nat) (st : St) :
    Nat × St :=
  if blockno ≥ BLK_MAX then (PFEB_BADBLOCK, st)
  else if !enabled then (0, st)
  else
    let st := { st with sel := eb_regsel blockno, selEbr := eb_regsel blockno }
    if !fwecheck st then (U32M, st)
    else
      let st := sweset st
      let st := wdtTcsr st WDT_TCSR_STOP
      let st := wdtRstcsr st WDT_RSTCSR_SETTING
      ebLoop dev blockno MAX_ET st

/-- writepulse of platf_7055_350nm.c (no latch inside; line 350 reads
*pFLMCR &= !FLMCR_PSU, and the C logical-not of 0x10 is 0, so the
whole register byte is cleared at that step). -/
def writepulse (tsp : Nat) (st : St) : St :=
  let st := wdtTcsr st WDT_TCSR_STOP
  let st := wdtTcsr st WDT_TCSR_WSTART
  let st := orSel st FLMCR_PSU
  let st := pulseP st tsp
  let st := andSel st (0xFF ^^^ FLMCR_P)
  let st := andSel st 0
  let st := wdtTcsr st WDT_TCSR_STOP
  st

/-- The pure register data-path of the 7055 writepulse, restricted to
the successive values taken by the byte pFLMCR points to, following
lines 344-351 of platf_7055_350nm.c: PSU raised, P raised, P lowered
with the arithmetic complement, then the final step applies the C
logical-not of FLMCR_PSU, which is 0, clearing the whole byte. -/
def writepulse_regs (r : Nat) : Nat :=
  (((r ||| FLMCR_PSU) ||| FLMCR_P) &&& (0xFF ^^^ FLMCR_P)) &&& 0

/-- The 128-byte latch loop of flash_write128, at word granularity
(the C performs byte transfers of the same data). -/
def latch128 (dest : Nat) (ws : List Nat) (k : Nat) (st : St) : St :=
  match ws with
  | [] => st
  | w :: ws =>
    latch128 dest ws (k + 1)
      { st with log := Evt.latch (dest + 4 * k) w :: st.log }

/-- Program-verify loop of flash_write128 over the 32 words of the
chunk (lines 407-438).  The mismatch flag compares the readback to the
reprog word; the additional-programming word is computed when n <= 6;
the hard-fault test at line 429 reads src & ~verifdata where src is
the source buffer ADDRESS (the srcdata word computed at line 415 is
not the one tested).  An error value is the goto badexit. -/
def pv128 (dev : Dev) (dest srcAddr : Nat) (srcW : List Nat) (n : Nat) :
    Nat → Nat → Bool → List Nat → List Nat → St →
    Except St (Bool × List Nat × List Nat × St)
  | 0, _, m, reprog, addit, st => .ok (m, reprog, addit, st)
  | rem + 1, k, m, reprog, addit, st =>
    let addr := dest + 4 * k
    let st := logDummy st addr
    let verifdata := dev.read st.reads addr
    let st := bumpRead st
    let srcdata := srcW.getD k 0
    let m := if verifdata ≠ reprog.getD k 0 then true else m
    let addit := if n ≤ 6 then addit.set k (verifdata ||| reprog.getD k 0) else addit
    if srcAddr &&& u32not verifdata ≠ 0 then .error st
    else
      pv128 dev dest srcAddr srcW n rem (k + 1) m
        (reprog.set k (reprogNext srcdata verifdata)) addit st

/-- The write loop of flash_write128 (n = 1; while (n < MAX_WT)).  The
C loop body never increments n, so the recursive call passes n
unchanged; fuel only bounds the model.  The success test if (!m) sits
after the while loop in the C (line 455), so it is only reached when
the guard n < MAX_WT fails. -/
def w128Loop (dev : Dev) (dest srcAddr : Nat) (srcW : List Nat) :
    Nat → Nat → Bool → List Nat → List Nat → St → Option (Nat × St)
  | 0, _, _, _, _, _ => none
  | fuel + 1, n, m, reprog, addit, st =>
    if n < MAX_WT then
      let st := latch128 dest reprog 0 st
      let st := if n ≤ OW_COUNT then writepulse TSP30 st else writepulse TSP200 st
      let st := orSel st FLMCR_PV
      match pv128 dev dest srcAddr srcW n 32 0 false reprog addit st with
      | .error st => some (U32M, sweclear st)
      | .ok (m, reprog, addit, st) =>
        let st := andSel st (0xFF ^^^ FLMCR_PV)
        let st :=
          if n ≤ 6 then writepulse TSP10 (latch128 dest addit 0 st) else st
        w128Loop dev dest srcAddr srcW fuel n m reprog addit st
    else
      if !m then some (0, sweclear st)
      else some (U32M, sweclear st)

/-- flash_write128 of platf_7055_350nm.c.  srcW is the 32-word content
of the 128-byte source buffer at address srcAddr; the addit buffer is
an uninitialised stack array, modelled as zeros (its content is fully
overwritten before first use on every path that uses it). -/
def flash_write128 (dev : Dev) (fuel dest srcAddr : Nat) (srcW : List Nat)
    (st : St) : Option (Nat × St) :=
  let st := { st with wcalls := st.wcalls + 1 }
  let st := { st with sel := decide (¬ dest < fblocks.getD (FLMCR1_MAXBLOCK + 1) 0) }
  if !fwecheck st then some (U32M, st)
  else
    let st := sweset st
    let st := wdtTcsr st WDT_TCSR_STOP
    let st := wdtRstcsr st WDT_RSTCSR_SETTING
    w128Loop dev dest srcAddr srcW fuel 1 false srcW (List.replicate 32 0) st

/-- The while (len) loop of platf_flash_wb: the chunk write is only
performed when reflashing is enabled (rv stays 0 otherwise), then
dest/src advance by 128 and len decreases by 128 with u32 wraparound.
wfuel is passed to each inner flash_write128 call. -/
def wbLoop (dev : Dev) (ram : Nat → Nat) (enabled : Bool) (wfuel : Nat) :
    Nat → Nat → Nat → Nat → St → Option (Nat × St)
  | 0, _, _, _, _ => none
  | fuel + 1, dest, src, len, st =>
    if len = 0 then some (0, st)
    else
      let r :=
        if enabled then flash_write128 dev wfuel dest src (chunkWords ram src 32) st
        else some (0, st)
      match r with
      | none => none
      | some (rv, st) =>
        if rv ≠ 0 then some (rv, st)
        else
          wbLoop dev ram enabled wfuel fuel ((dest + 128) % 4294967296)
            ((src + 128) % 4294967296) (u32sub len 128) st

/-- platf_flash_wb of platf_7055_350nm.c. -/
def platf_flash_wb (dev : Dev) (ram : Nat → Nat) (enabled : Bool)
    (wfuel fuel dest src len : Nat) (st : St) : Option (Nat × St) :=
  if dest > FL_MAXROM then some (PFWB_OOB, st)
  else if dest &&& 0x7F ≠ 0 then some (PFWB_MISALIGNED, st)
  else if len &&& 0x7F ≠ 0 then some (PFWB_LEN, st)
  else wbLoop dev ram enabled wfuel fuel dest src len st

end N55

/-! Device and RAM fixtures used by the concrete runs below. -/

/-- Device whose every verify read returns 0 (fully programmed cells). -/
def devZero : Dev := ⟨fun _ _ => 0⟩

/-- Device whose every verify read returns the erased all-ones word. -/
def devBlank : Dev := ⟨fun _ _ => U32M⟩

/-- RAM whose every word is all-ones. -/
def ramFF : Nat → Nat := fun _ => U32M

/-- True when some latch write at or above address a was logged. -/
def anyLatchAtOrAbove (a : Nat) (st : St) : Bool :=
  st.log.any fun e =>
    match e with
    | Evt.latch x _ => decide (x ≥ a)
    | _ => false

/-- C1: on the 7055 variant the hard-fault test of flash_write128
(line 429) reads src & ~verifdata where src is the source buffer
ADDRESS, not the source data word.  With all-zero source data and
all-zero readback — so no desired source bit is 1 anywhere and every
word verifies equal to the reprogram buffer — the function still
aborts on the first verified word, returning -1 (not even the
VerifyHardFault code), because the RAM address 0xFFFF8200 has 1-bits
where the readback has 0-bits.  The claim, the spec, and the comment
at line 430 of the C all require no abort here.  (The 7051 variant,
line 390, tests srcdata and conforms.) -/
theorem c1_hard_fault_tests_src_address :
    (N55.flash_write128 devZero 5 0 0xFFFF8200 (List.replicate 32 0) St.init).map Prod.fst
      = some U32M
    ∧ ((List.replicate 32 (0 : Nat)).all fun s => decide (s &&& u32not 0 = 0)) = true
    ∧ U32M ≠ PFWB_VERIFAIL :=
  ⟨rfl, by decide, by decide⟩

/-- State as set up by the 7055 platf_flash_eb for block 0: both
register pointers follow eb_regsel 0. -/
def stSel0 : St :=
  { St.init with sel := N55.eb_regsel 0, selEbr := N55.eb_regsel 0 }

/-- C4: the 7055 platf_flash_eb selects the register sets inverted.
Block 0 starts at address 0, below the variant threshold
fblocks[FLMCR1_MAXBLOCK+1] = 0x8000, so the claim requires the first
control/block-select register set (FLMCR1/EBR1); the code selects the
second (eb_regsel 0 = true picks FLMCR2/EBR2), and the erase pulse for
block 0 then drives EBR2 and never EBR1 — contradicting the macro
comment EB0..7 controlled by FLMCR1 at line 134 of the C and the
dest-based selection inside flash_write128. -/
theorem c4_eb_regsel_inverted :
    N55.eb_regsel 0 = true
    ∧ N55.fblocks.getD 0 0 < N55.fblocks.getD (N55.FLMCR1_MAXBLOCK + 1) 0
    ∧ Evt.ebr true 1 ∈ (N55.ferase 0 stSel0).log
    ∧ Evt.ebr false 1 ∉ (N55.ferase 0 stSel0).log :=
  ⟨rfl, by decide, by decide, by decide⟩

/-- C6: the 7055 writepulse lowers PSU with the C logical-not
(line 350: *pFLMCR &= !FLMCR_PSU, and !0x10 is 0), so the step that
should clear only the setup bit clears the whole control byte: from a
register with FWE and SWE asserted, writepulse leaves 0, deasserting
software-write-enable in the middle of the operation.  The 7051
writepulse (lines 312-314) uses the arithmetic complement and leaves
FWE|SWE intact, as the claim requires. -/
theorem c6_writepulse_clears_swe :
    (N55.writepulse N55.TSP30 { St.init with flmcr1 := FLMCR_FWE ||| FLMCR_SWE }).flmcr1 = 0
    ∧ N55.writepulse_regs (FLMCR_FWE ||| FLMCR_SWE) = 0
    ∧ N51.writepulse_regs (FLMCR_FWE ||| FLMCR_SWE) = FLMCR_FWE ||| FLMCR_SWE
    ∧ (N51.writepulse 0 (List.replicate 8 0) N51.TSP500
        { St.init with flmcr1 := FLMCR_FWE ||| FLMCR_SWE }).flmcr1
      = FLMCR_FWE ||| FLMCR_SWE := by
  decide

/-- C5 counterexample: on the 7051 variant, dest = 0x3FFE0 is within
the ROM limit and aligned, len = 0x40 makes dest+len = 0x40020 exceed
FL_MAXROM = 0x3FFFF, yet with an always-verifying device
platf_flash_wb returns 0 (success), not OutOfBounds, and latches a
chunk at address 0x40000, beyond the limit.  Only dest itself is ever
checked against FL_MAXROM (line 427). -/
theorem c5_overrun_not_rejected :
    (N51.platf_flash_wb devBlank ramFF true 3 0x3FFE0 0x100000 0x40 St.init).map Prod.fst
      = some 0
    ∧ (N51.platf_flash_wb devBlank ramFF true 3 0x3FFE0 0x100000 0x40 St.init).map
        (fun p => anyLatchAtOrAbove 0x40000 p.2) = some true
    ∧ N51.FL_MAXROM < 0x3FFE0 + 0x40
    ∧ (0 : Nat) ≠ PFWB_OOB :=
  ⟨rfl, rfl, by decide, by decide⟩

/-- C5 amended: writeRange rejects with OutOfBounds exactly the
destinations whose own address exceeds the variant ROM limit,
regardless of the session flag and before any hardware access; a range
whose end dest+len crosses the limit is not rejected. -/
theorem c5_dest_oob_rejected (dev : Dev) (ram : Nat → Nat) (enabled : Bool)
    (wfuel fuel dest src len : Nat) (st : St) :
    (dest > N51.FL_MAXROM →
      N51.platf_flash_wb dev ram enabled fuel dest src len st = some (PFWB_OOB, st))
    ∧ (dest > N55.FL_MAXROM →
      N55.platf_flash_wb dev ram enabled wfuel fuel dest src len st = some (PFWB_OOB, st)) := by
  constructor <;> intro h <;> simp [N51.platf_flash_wb, N55.platf_flash_wb, h]

/-- C5 witness: both rejections at dest = 0x80000. -/
theorem c5_dest_oob_rejected_witness :
    N51.platf_flash_wb devZero ramFF true 1 0x80000 0 0 St.init = some (PFWB_OOB, St.init)
    ∧ N55.platf_flash_wb devZero ramFF true 1 1 0x80000 0 0 St.init = some (PFWB_OOB, St.init) :=
  ⟨(c5_dest_oob_rejected devZero ramFF true 1 1 0x80000 0 0 St.init).1 (by decide),
   (c5_dest_oob_rejected devZero ramFF true 1 1 0x80000 0 0 St.init).2 (by decide)⟩

/-- C7 counterexample: with source word 0 and readback all-ones (a
still-erased word that needs every bit programmed, so every bit is
not yet matching the source), the recomputed reprogram word
source | ~readback is 0: the unfinished bits are set to 0 in the
buffer — the latch value the next pulse programs — not to 1 as the
claim words it. -/
theorem c7_unfinished_bits_not_set_to_one :
    reprogNext 0 U32M = 0
    ∧ Nat.testBit 0 0 ≠ Nat.testBit U32M 0
    ∧ Nat.testBit (reprogNext 0 U32M) 0 = false :=
  ⟨rfl, by decide, by decide⟩

/-- C7 amended: after each program-verify read that does not trigger
the hard-fault abort, the reprogram-buffer word is recomputed as
source | ~readback (reprogNext, used verbatim by both write engines);
per bit, source 0 with readback 0 (already correctly programmed)
yields 1, the latch value that is never pulsed again; source 0 with
readback 1 (not yet matching) yields 0, the latch value the next
pulse programs, so exactly the unfinished bits are retried; source 1
yields 1. -/
theorem c7_reprog_next_law (s v j : Nat) (hj : j < 32) :
    reprogNext s v = s ||| u32not v
    ∧ (s.testBit j = false → v.testBit j = false → (reprogNext s v).testBit j = true)
    ∧ (s.testBit j = false → v.testBit j = true → (reprogNext s v).testBit j = false)
    ∧ (s.testBit j = true → (reprogNext s v).testBit j = true) := by
  have hM : Nat.testBit U32M j = true := by
    have h32 : (U32M : Nat) = 2 ^ 32 - 1 := by norm_num [U32M]
    rw [h32, Nat.testBit_two_pow_sub_one]
    simp [hj]
  refine ⟨rfl, fun h1 h2 => ?_, fun h1 h2 => ?_, fun h1 => ?_⟩
  · simp [reprogNext, u32not, Nat.testBit_lor, Nat.testBit_xor, hM, h1, h2]
  · simp [reprogNext, u32not, Nat.testBit_lor, Nat.testBit_xor, hM, h1, h2]
  · simp [reprogNext, u32not, Nat.testBit_lor, Nat.testBit_xor, hM, h1]

/-- C7 witness: at source 0, readback 0, bit 0 the recomputation gives
buffer bit 1. -/
theorem c7_reprog_next_law_witness :
    reprogNext 0 0 = 0 ||| u32not 0
    ∧ (reprogNext 0 0).testBit 0 = true := by
  have h := c7_reprog_next_law 0 0 0 (by decide)
  exact ⟨h.1, h.2.1 (by decide) (by decide)⟩

/-- Under a device that never reads back blank, one step of the 7051
erase-verify word loop already fails. -/
theorem ferasevfLoop51_ne (dev : Dev) (h : ∀ i a, dev.read i a ≠ U32M) :
    ∀ rem addr st, rem ≠ 0 → (N51.ferasevfLoop dev rem addr st).1 = false := by
  intro rem addr st hrem
  match rem with
  | 0 => exact absurd rfl hrem
  | r + 1 =>
    simp only [N51.ferasevfLoop]
    simp [h]

/-- Same fact for the 7055 variant. -/
theorem ferasevfLoop55_ne (dev : Dev) (h : ∀ i a, dev.read i a ≠ U32M) :
    ∀ rem addr st, rem ≠ 0 → (N55.ferasevfLoop dev rem addr st).1 = false := by
  intro rem addr st hrem
  match rem with
  | 0 => exact absurd rfl hrem
  | r + 1 =>
    simp only [N55.ferasevfLoop]
    simp [h]

/-- Every 7051 erase attempt on block 0 fails under such a device, so
the retry loop runs to exhaustion and yields PFEB_VERIFAIL. -/
theorem ebLoop51_exhaust (dev : Dev) (h : ∀ i a, dev.read i a ≠ U32M) :
    ∀ rem st, (N51.ebLoop dev 0 rem st).1 = PFEB_VERIFAIL := by
  intro rem
  induction rem with
  | zero => intro st; rfl
  | succ r ih =>
    intro st
    have hvf : ∀ st1 : St, (N51.ferasevf dev 0 st1).1 = false := by
      intro st1
      simp only [N51.ferasevf]
      exact ferasevfLoop51_ne dev h _ _ _ (by decide)
    simp only [N51.ebLoop]
    rw [hvf]
    simp only [Bool.false_eq_true, if_false]
    exact ih _

/-- Every 7055 erase attempt on block 0 fails under such a device, so
the retry loop runs to exhaustion and yields the -1 of line 326. -/
theorem ebLoop55_exhaust (dev : Dev) (h : ∀ i a, dev.read i a ≠ U32M) :
    ∀ rem st, (N55.ebLoop dev 0 rem st).1 = U32M := by
  intro rem
  induction rem with
  | zero => intro st; rfl
  | succ r ih =>
    intro st
    have hvf : ∀ st1 : St, (N55.ferasevf dev 0 st1).1 = false := by
      intro st1
      simp only [N55.ferasevf]
      exact ferasevfLoop55_ne dev h _ _ _ (by decide)
    simp only [N55.ebLoop]
    rw [hvf]
    simp only [Bool.false_eq_true, if_false]
    exact ih _

/-- C8 amended: when every erase attempt on block 0 ends with a failed
blank-verify (the device never reads back all-ones), the 7051
eraseBlock returns the fixed EraseVerifyFailed code 0x85 of the
shared taxonomy, but the 7055 variant returns the untranslated -1
(0xFFFFFFFF on uint32_t): the code is not stable across the two chip
variants. -/
theorem c8_erase_exhaust_codes (dev : Dev) (h : ∀ i a, dev.read i a ≠ U32M)
    (st : St) (hf : fwecheck st = true) :
    (N51.platf_flash_eb dev true 0 st).1 = PFEB_VERIFAIL
    ∧ (N55.platf_flash_eb dev true 0 st).1 = U32M := by
  constructor
  · simp only [N51.platf_flash_eb]
    rw [if_neg (by decide), if_neg (by simp)]
    rw [if_neg (by simp [fwecheck] at hf ⊢; exact hf)]
    exact ebLoop51_exhaust dev h _ _
  · simp only [N55.platf_flash_eb]
    rw [if_neg (by decide), if_neg (by simp)]
    rw [if_neg (by simp [fwecheck] at hf ⊢; exact hf)]
    exact ebLoop55_exhaust dev h _ _

/-- C8 witness: the amended statement at the all-zero-reading device
and the reset state. -/
theorem c8_erase_exhaust_codes_witness :
    (N51.platf_flash_eb devZero true 0 St.init).1 = PFEB_VERIFAIL
    ∧ (N55.platf_flash_eb devZero true 0 St.init).1 = U32M :=
  c8_erase_exhaust_codes devZero
    (fun i a => by show (0 : Nat) ≠ U32M; decide) St.init (by decide)

/-- When the source buffer address has no 1-bit where any readback has
a 0-bit, the 7055 program-verify loop never takes the badexit goto. -/
theorem pv128_ne_error (dev : Dev) (dest srcAddr : Nat) (srcW : List Nat) (n : Nat)
    (h : ∀ i a, srcAddr &&& u32not (dev.read i a) = 0) :
    ∀ rem k m reprog addit st e,
      N55.pv128 dev dest srcAddr srcW n rem k m reprog addit st ≠ .error e := by
  intro rem
  induction rem with
  | zero => intro k m reprog addit st e; simp [N55.pv128]
  | succ r ih =>
    intro k m reprog addit st e
    simp only [N55.pv128]
    rw [if_neg (by simp [h])]
    exact ih _ _ _ _ _ _

/-- The write loop of flash_write128 never returns once entered with
n = 1: the body hands n back unchanged, so the guard n < MAX_WT stays
true for ever (the hard-fault exit being excluded by h, and the
success test being unreachable).  Stated over the model fuel: no
amount of fuel produces a result. -/
theorem w128Loop_stuck (dev : Dev) (dest srcAddr : Nat) (srcW : List Nat)
    (h : ∀ i a, srcAddr &&& u32not (dev.read i a) = 0) :
    ∀ fuel m reprog addit st,
      N55.w128Loop dev dest srcAddr srcW fuel 1 m reprog addit st = none := by
  intro fuel
  induction fuel with
  | zero => intro m reprog addit st; rfl
  | succ f ih =>
    intro m reprog addit st
    simp only [N55.w128Loop]
    rw [if_pos (by decide : (1 : Nat) < N55.MAX_WT)]
    split
    · rename_i e heq
      exact absurd heq (pv128_ne_error dev dest srcAddr srcW 1 h _ _ _ _ _ _ _)
    · exact ih _ _ _ _

/-- Reports the mismatch flag a program-verify pass came back with,
when it did not abort. -/
def pvMismatch (r : Except St (Bool × List Nat × List Nat × St)) : Option Bool :=
  match r with
  | .error _ => none
  | .ok (m, _, _, _) => some m

/-- C2: on the 7055 variant the retry loop of flash_write128 never
terminates: n is set to 1 before the while (n < MAX_WT) loop and the
body never increments it.  With a device whose cells never program
(every readback stays all-ones) and all-zero source data, every
attempt ends with a mismatch — the claim then demands
MaxRetriesExceeded after the final attempt — yet no amount of fuel
makes the model return: the attempt counter does not increase and the
function never returns any code.  (The 7051 loop, for n = 1; n <
MAX_WT; n++, does terminate and returns PFWB_MAXRET.) -/
theorem c2_write128_loop_never_terminates :
    (∀ fuel, N55.flash_write128 devBlank fuel 0 0xFFFF8200
        (List.replicate 32 0) St.init = none)
    ∧ pvMismatch (N55.pv128 devBlank 0 0xFFFF8200 (List.replicate 32 0) 1 32 0 false
        (List.replicate 32 0) (List.replicate 32 0) St.init) = some true := by
  have h : ∀ i a, 0xFFFF8200 &&& u32not (devBlank.read i a) = 0 := fun i a => by
    show 0xFFFF8200 &&& u32not U32M = 0
    decide
  constructor
  · intro fuel
    simp only [N55.flash_write128]
    rw [if_neg (by decide)]
    exact w128Loop_stuck devBlank 0 0xFFFF8200 (List.replicate 32 0) h fuel false _ _ _
  · rfl

/-- C3: on the 7055 variant a mismatch-free program-verify pass does
not end the retry loop: the success test if (!m) sits after the while
loop (line 455) and n is never incremented, so even with a device on
which the very first attempt verifies perfectly (all-ones source over
an erased chunk, readback equal to the reprogram buffer on every
word, mismatch flag false), flash_write128 never exits and never
returns 0, for any amount of fuel.  (On the 7051 variant the success
test is inside the loop but compares the readback against srcdata,
the source word, not against the reprogram buffer.) -/
theorem c3_write128_success_never_exits :
    (∀ fuel, N55.flash_write128 devBlank fuel 0 0xFFFF8200
        (List.replicate 32 U32M) St.init = none)
    ∧ pvMismatch (N55.pv128 devBlank 0 0xFFFF8200 (List.replicate 32 U32M) 1 32 0 false
        (List.replicate 32 U32M) (List.replicate 32 0) St.init) = some false := by
  have h : ∀ i a, 0xFFFF8200 &&& u32not (devBlank.read i a) = 0 := fun i a => by
    show 0xFFFF8200 &&& u32not U32M = 0
    decide
  constructor
  · intro fuel
    simp only [N55.flash_write128]
    rw [if_neg (by decide)]
    exact w128Loop_stuck devBlank 0 0xFFFF8200 (List.replicate 32 U32M) h fuel false _ _ _
  · rfl

/-- With the session protected, the 7055 chunk loop walks the whole
range without touching hardware or state and returns success. -/
theorem wbLoop55_disabled (dev : Dev) (ram : Nat → Nat) (wfuel : Nat) :
    ∀ fuel len dest src st, len < 128 * fuel → len % 128 = 0 →
      len < 4294967296 →
      N55.wbLoop dev ram false wfuel fuel dest src len st = some (0, st) := by
  intro fuel
  induction fuel with
  | zero => intro len dest src st h1 _ _; exact absurd h1 (by omega)
  | succ f ih =>
    intro len dest src st h1 h2 h3
    simp only [N55.wbLoop]
    by_cases h0 : len = 0
    · rw [if_pos h0]
    · rw [if_neg h0]
      have h128 : 128 ≤ len :=
        Nat.le_of_dvd (Nat.pos_of_ne_zero h0) (Nat.dvd_of_mod_eq_zero h2)
      have hsub : u32sub len 128 = len - 128 := by unfold u32sub; omega
      simp only [Bool.false_eq_true, if_false, ne_eq, not_true_eq_false,
        not_false_eq_true, hsub]
      exact ih _ _ _ _ (by omega) (by omega) (by omega)

/-- C9: with the session not unprotected, eraseBlock on a valid block
index returns 0 with the state (hardware and log) unchanged on both
variants; writeRange performs its dest-bound and dest/len alignment
validation first, returning OutOfBounds, Misaligned or LengthInvalid
regardless of the session flag, and otherwise returns 0 with the
state unchanged (on the 7051 the loop is skipped entirely, on the
7055 the loop walks the range without calling the chunk writer). -/
theorem c9_protected_noop :
    (∀ (dev : Dev) (b : Nat) (st : St), b < N51.BLK_MAX →
      N51.platf_flash_eb dev false b st = (0, st))
    ∧ (∀ (dev : Dev) (b : Nat) (st : St), b < N55.BLK_MAX →
      N55.platf_flash_eb dev false b st = (0, st))
    ∧ (∀ (dev : Dev) (ram : Nat → Nat) (en : Bool) (fuel dest src len : Nat) (st : St),
        (N51.FL_MAXROM < dest →
          N51.platf_flash_wb dev ram en fuel dest src len st = some (PFWB_OOB, st))
        ∧ (dest ≤ N51.FL_MAXROM → dest &&& 0x1F ≠ 0 →
          N51.platf_flash_wb dev ram en fuel dest src len st = some (PFWB_MISALIGNED, st))
        ∧ (dest ≤ N51.FL_MAXROM → dest &&& 0x1F = 0 → len &&& 0x1F ≠ 0 →
          N51.platf_flash_wb dev ram en fuel dest src len st = some (PFWB_LEN, st))
        ∧ (dest ≤ N51.FL_MAXROM → dest &&& 0x1F = 0 → len &&& 0x1F = 0 →
          N51.platf_flash_wb dev ram false fuel dest src len st = some (0, st)))
    ∧ (∀ (dev : Dev) (ram : Nat → Nat) (en : Bool) (wfuel fuel dest src len : Nat) (st : St),
        (N55.FL_MAXROM < dest →
          N55.platf_flash_wb dev ram en wfuel fuel dest src len st = some (PFWB_OOB, st))
        ∧ (dest ≤ N55.FL_MAXROM → dest &&& 0x7F ≠ 0 →
          N55.platf_flash_wb dev ram en wfuel fuel dest src len st = some (PFWB_MISALIGNED, st))
        ∧ (dest ≤ N55.FL_MAXROM → dest &&& 0x7F = 0 → len &&& 0x7F ≠ 0 →
          N55.platf_flash_wb dev ram en wfuel fuel dest src len st = some (PFWB_LEN, st))
        ∧ (dest ≤ N55.FL_MAXROM → dest &&& 0x7F = 0 → len &&& 0x7F = 0 →
          len < 128 * fuel → len < 4294967296 →
          N55.platf_flash_wb dev ram false wfuel fuel dest src len st = some (0, st))) := by
  refine ⟨?_, ?_, ?_, ?_⟩
  · intro dev b st hb
    simp [N51.platf_flash_eb, Nat.not_le.mpr hb]
  · intro dev b st hb
    simp [N55.platf_flash_eb, Nat.not_le.mpr hb]
  · intro dev ram en fuel dest src len st
    refine ⟨fun h => ?_, fun h1 h2 => ?_, fun h1 h2 h3 => ?_, fun h1 h2 h3 => ?_⟩
    · simp [N51.platf_flash_wb, h]
    · simp [N51.platf_flash_wb, Nat.not_lt.mpr h1, h2]
    · simp [N51.platf_flash_wb, Nat.not_lt.mpr h1, h2, h3]
    · simp [N51.platf_flash_wb, Nat.not_lt.mpr h1, h2, h3]
  · intro dev ram en wfuel fuel dest src len st
    refine ⟨fun h => ?_, fun h1 h2 => ?_, fun h1 h2 h3 => ?_,
      fun h1 h2 h3 h4 h5 => ?_⟩
    · simp [N55.platf_flash_wb, h]
    · simp [N55.platf_flash_wb, Nat.not_lt.mpr h1, h2]
    · simp [N55.platf_flash_wb, Nat.not_lt.mpr h1, h2, h3]
    · have hmod : len % 128 = 0 := by
        have h127 : (0x7F : Nat) = 2 ^ 7 - 1 := by norm_num
        rw [h127, Nat.and_pow_two_sub_one_eq_mod] at h3
        exact h3
      simp only [N55.platf_flash_wb]
      rw [if_neg (Nat.not_lt.mpr h1), if_neg (by simp [h2]), if_neg (by simp [h3])]
      exact wbLoop55_disabled dev ram wfuel fuel len dest src st h4 hmod h5

/-- C9 witness: concrete protected no-ops and one validation rejection
per variant are exercised elsewhere; here block 0 and a zero-length
aligned write. -/
theorem c9_protected_noop_witness :
    N51.platf_flash_eb devZero false 0 St.init = (0, St.init)
    ∧ N55.platf_flash_eb devZero false 0 St.init = (0, St.init)
    ∧ N51.platf_flash_wb devZero ramFF false 1 0 0 0 St.init = some (0, St.init)
    ∧ N55.platf_flash_wb devZero ramFF false 1 2 0 0 128 St.init = some (0, St.init) :=
  ⟨c9_protected_noop.1 devZero 0 St.init (by decide),
   c9_protected_noop.2.1 devZero 0 St.init (by decide),
   (c9_protected_noop.2.2.1 devZero ramFF false 1 0 0 0 St.init).2.2.2
     (by decide) (by decide) (by decide),
   (c9_protected_noop.2.2.2 devZero ramFF false 1 2 0 0 128 St.init).2.2.2
     (by decide) (by decide) (by decide) (by decide) (by decide)⟩

/-- C10: a chunk-aligned in-bounds dest with len = 0 passes all the
validations and skips the chunk loop on both variants: writeRange
returns 0 and the state — including the chunk-write call counter
wcalls and the hardware access log — is returned unchanged, whatever
the session flag. -/
theorem c10_len_zero_noop :
    (∀ (dev : Dev) (ram : Nat → Nat) (enabled : Bool) (fuel dest src : Nat) (st : St),
      fuel ≠ 0 → dest ≤ N51.FL_MAXROM → dest &&& 0x1F = 0 →
      N51.platf_flash_wb dev ram enabled fuel dest src 0 st = some (0, st))
    ∧ (∀ (dev : Dev) (ram : Nat → Nat) (enabled : Bool) (wfuel fuel dest src : Nat) (st : St),
      fuel ≠ 0 → dest ≤ N55.FL_MAXROM → dest &&& 0x7F = 0 →
      N55.platf_flash_wb dev ram enabled wfuel fuel dest src 0 st = some (0, st)) := by
  constructor
  · intro dev ram enabled fuel dest src st hfuel h51 ha51
    obtain ⟨f, rfl⟩ := Nat.exists_eq_succ_of_ne_zero hfuel
    cases enabled <;>
      simp [N51.platf_flash_wb, N51.wbLoop, Nat.not_lt.mpr h51, ha51]
  · intro dev ram enabled wfuel fuel dest src st hfuel h55 ha55
    obtain ⟨f, rfl⟩ := Nat.exists_eq_succ_of_ne_zero hfuel
    simp [N55.platf_flash_wb, N55.wbLoop, Nat.not_lt.mpr h55, ha55]

/-- C10 witness: len 0 at a 7051 dest that is 32- but not 128-aligned
(0x20) and a 7055 dest beyond the 7051 ROM limit (0x40000), session
unprotected and protected. -/
theorem c10_len_zero_noop_witness :
    (N51.platf_flash_wb devZero ramFF true 1 0x20 0 0 St.init = some (0, St.init)
      ∧ N55.platf_flash_wb devZero ramFF true 1 1 0x40000 0 0 St.init = some (0, St.init))
    ∧ (N51.platf_flash_wb devZero ramFF false 1 0x20 0 0 St.init = some (0, St.init)
      ∧ N55.platf_flash_wb devZero ramFF false 1 1 0x40000 0 0 St.init = some (0, St.init)) :=
  ⟨⟨c10_len_zero_noop.1 devZero ramFF true 1 0x20 0 St.init
      (by decide) (by decide) (by decide),
    c10_len_zero_noop.2 devZero ramFF true 1 1 0x40000 0 St.init
      (by decide) (by decide) (by decide)⟩,
   ⟨c10_len_zero_noop.1 devZero ramFF false 1 0x20 0 St.init
      (by decide) (by decide) (by decide),
    c10_len_zero_noop.2 devZero ramFF false 1 1 0x40000 0 St.init
      (by decide) (by decide) (by decide)⟩⟩

/-- C8 counterexample: erase-attempt exhaustion on the 7055 variant
(block 0, a device that never reads back blank) returns -1, read as
0xFFFFFFFF on uint32_t — not the fixed EraseVerifyFailed code 0x85 of
the shared taxonomy, which the 7051 variant does return on the same
scenario: the value is not stable across variants. -/
theorem c8_7055_erase_exhaust_returns_generic :
    (N55.platf_flash_eb devZero true 0 St.init).1 = U32M
    ∧ U32M ≠ PFEB_VERIFAIL
    ∧ (N51.platf_flash_eb devZero true 0 St.init).1 = PFEB_VERIFAIL :=
  ⟨rfl, by decide, rfl⟩
